import Mathlib

/-!
Shallow embedding of the behavior-adaptive AI engine of the snake game
(`src/js/storageManager.js`, `AIEngine` class, plus the snapshot validators in
`src/js/types.js` and `StorageManager.validateBehaviorData`).

Modelling conventions:
* JavaScript numbers are modelled as `ℚ` (scores, thresholds, intensities as
  rationals) or as `Nat`/`Int` where the source only ever holds integers
  (heatmap counters, history length, grid indices). The engine record keeps
  its difficulty in `ℤ` — an invariant of the controller's own clamped unit
  steps — but the `setDifficulty` entry point accepts arbitrary numbers
  (its guard has no integrality test), so it is modelled over `ℚ` on the
  fields it writes (`DifficultyCell`).
* `Math.floor`, `Math.ceil` and `Math.round` on rationals are modelled by
  `jsFloor`, `jsCeil`, `jsRound` below (floor division on the reduced
  numerator/denominator, which agrees with the mathematical floor).
* `Math.random()`-driven draws are modelled by an explicit stream
  `rng : Nat → Nat`; `Math.floor(Math.random() * k)` becomes `rng i % k`,
  which ranges over exactly the outcomes the source can produce.
* `Date.now()` is passed in as an explicit timestamp argument.
* JavaScript objects whose fields may be absent (the persisted snapshot given
  to `AIEngine.loadBehaviorData`) are modelled with `Option` fields; `none`
  is an absent/falsy field, `some` a present (truthy) one.
* The neutral early return of `analyzeMovementPatterns` does not carry the
  `totalMovements` and `directionCounts` fields in the source, so those are
  `Option`s on the analysis record; the comparison `undefined < 20` that the
  source performs in `determinePlacementStrategy` is `false` in JavaScript,
  and `totalMovementsLtTwenty` models exactly that.
-/

namespace SnakeAI

/-- Movement directions, the four strings `'up' | 'down' | 'left' | 'right'`. -/
inductive Dir where
  | up
  | down
  | left
  | right
deriving DecidableEq, Repr

/-- A pixel-unit position `{x, y}` as used by the engine's public interface. -/
structure Pos where
  x : Int
  y : Int
deriving DecidableEq, Repr

/-- The `gameContext` payload of a movement record (defaults are applied by the
caller in `recordMovement`, so here the fields are already concrete). -/
structure GameContext where
  score : ℚ
  snakeLength : Nat
  foodDistance : ℚ
deriving DecidableEq, Repr

/-- One entry of `movementHistory`, as built by `recordMovement`. -/
structure MovementEvent where
  timestamp : Nat
  position : Pos
  direction : Dir
  gameContext : GameContext
deriving DecidableEq, Repr

/-- The `directionCounts` object `{up, down, left, right}` of
`analyzeMovementPatterns`. -/
structure DirectionCounts where
  up : Nat := 0
  down : Nat := 0
  left : Nat := 0
  right : Nat := 0
deriving DecidableEq, Repr

/-- The three food-placement strategy strings
`'random' | 'challenging' | 'accessible'`. -/
inductive Strategy where
  | random
  | challenging
  | accessible
deriving DecidableEq, Repr

/-- The `performanceMetrics` record of the engine. -/
structure PerformanceMetrics where
  averageScore : ℚ
  averageGameDuration : ℚ
  recentScores : List ℚ
  difficultyProgression : List Int
  gameStartTime : Option ℚ
  totalGamesPlayed : Nat
  consecutiveHighPerformance : Nat
  consecutiveLowPerformance : Nat
deriving DecidableEq, Repr

/-- The `adaptationSettings` record of the engine. -/
structure AdaptationSettings where
  currentDifficulty : Int
  foodPlacementStrategy : Strategy
  visualIntensityLevel : Int
deriving DecidableEq, Repr

/-- The `AIEngine` instance state. -/
structure AIEngine where
  gridSize : Nat
  canvasWidth : Nat
  canvasHeight : Nat
  gridWidth : Nat
  gridHeight : Nat
  movementHistory : List MovementEvent
  movementHeatmap : List (List Nat)
  performanceMetrics : PerformanceMetrics
  adaptationSettings : AdaptationSettings
deriving DecidableEq, Repr

/-- `this.maxHistorySize = 1000` from the `AIEngine` constructor. -/
def maxHistorySize : Nat := 1000

/-- `Math.floor` on a rational: floor division of the reduced numerator by the
(positive) denominator. -/
def jsFloor (q : ℚ) : Int := q.num.fdiv q.den

/-- `Math.ceil` on a rational. -/
def jsCeil (q : ℚ) : Int := -(jsFloor (-q))

/-- `Math.round` on a rational (JavaScript rounds half toward positive
infinity). -/
def jsRound (q : ℚ) : Int := jsFloor (q + 1/2)

/-- `initializeHeatmap`: a `gridHeight × gridWidth` matrix of zero counters. -/
def initializeHeatmap (gridWidth gridHeight : Nat) : List (List Nat) :=
  List.replicate gridHeight (List.replicate gridWidth 0)

/-- In-place update of one list element, used to model `array[i]++`. -/
def listModify {α : Type} : List α → Nat → (α → α) → List α
  | [], _, _ => []
  | a :: l, 0, f => f a :: l
  | a :: l, n + 1, f => a :: listModify l n f

/-- Cell read `matrix[y][x]` with JavaScript-style defaulting pushed to a
given default value. -/
def cellAt {α : Type} (m : List (List α)) (y x : Nat) (d : α) : α :=
  (m.getD y []).getD x d

/-- `updateHeatmapCell(position)`: convert the pixel position to grid
coordinates with `Math.floor`, then increment the counter only when both
coordinates are inside the grid bounds. -/
def updateHeatmapCell (gridSize gridWidth gridHeight : Nat) (position : Pos)
    (movementHeatmap : List (List Nat)) : List (List Nat) :=
  let gridX : Int := position.x.fdiv gridSize
  let gridY : Int := position.y.fdiv gridSize
  if 0 ≤ gridX ∧ gridX < gridWidth ∧ 0 ≤ gridY ∧ gridY < gridHeight then
    listModify movementHeatmap gridY.toNat (fun row => listModify row gridX.toNat (· + 1))
  else
    movementHeatmap

/-- The maximum cell value of the heatmap, computed by the same nested
fold over rows the source's nested loops perform, starting from `0`. -/
def heatmapMax (movementHeatmap : List (List Nat)) : Nat :=
  movementHeatmap.foldl (fun m row => row.foldl (fun m' v => max m' v) m) 0

/-- One cell of the normalized heatmap: divide by the maximum when it is
positive, else 0 (the `maxValue > 0` guard of the source). -/
def normalizeCell (maxValue : Nat) (v : Nat) : ℚ :=
  if 0 < maxValue then (v : ℚ) / (maxValue : ℚ) else 0

/-- `generateHeatmap()`: a same-shaped matrix of values normalized by the
maximum cell value, or all zeros when the maximum is zero. -/
def generateHeatmap (movementHeatmap : List (List Nat)) : List (List ℚ) :=
  let maxValue := heatmapMax movementHeatmap
  movementHeatmap.map (fun row => row.map (normalizeCell maxValue))

/-- Insert an element into a sorted list, after any run of elements that
strictly precede it under `le` — the insertion step of a stable sort. -/
def jsInsert {α : Type} (le : α → α → Bool) (a : α) : List α → List α
  | [] => [a]
  | b :: l => if le b a && !(le a b) then b :: jsInsert le a l else a :: b :: l

/-- Stable insertion sort, modelling `Array.prototype.sort(cmp)`: JavaScript
only guarantees a stable sort consistent with the comparator, and
`le a b` here stands for `cmp(a, b) <= 0`. -/
def jsSortBy {α : Type} (le : α → α → Bool) : List α → List α
  | [] => []
  | a :: l => jsInsert le a (jsSortBy le l)

/-- One entry of the lists built by `getHotspots` / `getColdspots`. -/
structure Spot where
  x : Int
  y : Int
  gridX : Nat
  gridY : Nat
  intensity : ℚ
  rawCount : Nat
deriving DecidableEq, Repr

/-- `getColdspots(threshold)`: scan the normalized heatmap in row-major order,
collect the cells whose intensity is at most the threshold (converted back to
pixel units), and sort ascending by intensity (`sort((a, b) => a.intensity -
b.intensity)`, a stable sort). -/
def getColdspots (st : AIEngine) (threshold : ℚ) : List Spot :=
  let normalizedHeatmap := generateHeatmap st.movementHeatmap
  let coldspots := (List.range st.gridHeight).flatMap (fun y =>
    (List.range st.gridWidth).filterMap (fun x =>
      let intensity := cellAt normalizedHeatmap y x 0
      if intensity ≤ threshold then
        some { x := ((x * st.gridSize : Nat) : Int), y := ((y * st.gridSize : Nat) : Int),
               gridX := x, gridY := y, intensity := intensity,
               rawCount := cellAt st.movementHeatmap y x 0 }
      else
        none))
  jsSortBy (fun a b => decide (a.intensity ≤ b.intensity)) coldspots

/-- Direction counter bump `directionCounts[record.direction]++`. -/
def bumpDir (c : DirectionCounts) : Dir → DirectionCounts
  | .up => { c with up := c.up + 1 }
  | .down => { c with down := c.down + 1 }
  | .left => { c with left := c.left + 1 }
  | .right => { c with right := c.right + 1 }

/-- Read one direction's counter. -/
def dirCount (c : DirectionCounts) : Dir → Nat
  | .up => c.up
  | .down => c.down
  | .left => c.left
  | .right => c.right

/-- `Object.keys(directionCounts)` in insertion order. -/
def dirKeys : List Dir := [Dir.up, Dir.down, Dir.left, Dir.right]

/-- The result record of `analyzeMovementPatterns`. The neutral early return
of the source carries only `dominantDirections`, `averageGameDuration` and
`movementDiversity`; the fields missing from it are `Option`s here. -/
structure MovementAnalysis where
  dominantDirections : List Dir
  averageGameDuration : Option ℚ
  directionCounts : Option DirectionCounts
  movementDiversity : ℚ
  totalMovements : Option Nat
deriving DecidableEq, Repr

/-- `analyzeMovementPatterns()`: below 10 recorded events return the neutral
record; otherwise count directions over the full retained history, take as
dominant the directions whose count exceeds `totalMoves / 4` (sorted by
descending count, stable for ties), and set diversity to the number of
directions in use divided by 4. -/
def analyzeMovementPatterns (st : AIEngine) : MovementAnalysis :=
  if st.movementHistory.length < 10 then
    { dominantDirections := [], averageGameDuration := some 0, directionCounts := none,
      movementDiversity := 0, totalMovements := none }
  else
    let directionCounts := st.movementHistory.foldl (fun c r => bumpDir c r.direction) {}
    let totalMoves := st.movementHistory.length
    let averageUsage : ℚ := (totalMoves : ℚ) / 4
    let dominantDirections :=
      jsSortBy (fun a b => decide (dirCount directionCounts b ≤ dirCount directionCounts a))
        (dirKeys.filter (fun d => decide (averageUsage < (dirCount directionCounts d : ℚ))))
    let uniqueDirections :=
      ([directionCounts.up, directionCounts.down, directionCounts.left,
        directionCounts.right].filter (fun count => decide (0 < count))).length
    let movementDiversity : ℚ := (uniqueDirections : ℚ) / 4
    { dominantDirections := dominantDirections, averageGameDuration := none,
      directionCounts := some directionCounts, movementDiversity := movementDiversity,
      totalMovements := some totalMoves }

/-- `updateVisualIntensityFromMovement()`: over the last 20 movements (fewer
than 5 fixes the level at 1), combine direction diversity and the frequency
of direction changes into a 1–5 intensity. -/
def updateVisualIntensityFromMovement (st : AIEngine) : AIEngine :=
  let recentMovements := st.movementHistory.drop (st.movementHistory.length - 20)
  if recentMovements.length < 5 then
    { st with adaptationSettings := { st.adaptationSettings with visualIntensityLevel := 1 } }
  else
    let directions := recentMovements.map (·.direction)
    let diversityFrac : ℚ := (directions.dedup.length : ℚ) / 4
    let directionChanges := (directions.zip directions.tail).countP (fun p => decide (p.1 ≠ p.2))
    let changeFrac : ℚ := (directionChanges : ℚ) / ((directions.length : ℚ) - 1)
    let intensityScore := diversityFrac * 2 + changeFrac * 3
    let level := max 1 (min 5 (jsCeil intensityScore))
    { st with adaptationSettings := { st.adaptationSettings with visualIntensityLevel := level } }

/-- `recordMovement(position, direction, gameContext)`: append the movement
record, evict the oldest once past `maxHistorySize`, update the heatmap cell,
and refresh the movement-based visual intensity. -/
def recordMovement (st : AIEngine) (now : Nat) (position : Pos) (direction : Dir)
    (gameContext : GameContext) : AIEngine :=
  let movementRecord : MovementEvent :=
    { timestamp := now, position := position, direction := direction, gameContext := gameContext }
  let history := st.movementHistory ++ [movementRecord]
  let history := if maxHistorySize < history.length then history.drop 1 else history
  let heatmap := updateHeatmapCell st.gridSize st.gridWidth st.gridHeight position st.movementHeatmap
  updateVisualIntensityFromMovement
    { st with movementHistory := history, movementHeatmap := heatmap }

/-- `Math.ceil(currentDifficulty / 3.33)`, the difficulty-based intensity
modifier of `updateVisualIntensityFromDifficulty`. -/
def difficultyIntensityModifier (difficulty : Int) : Int :=
  jsCeil ((difficulty : ℚ) / 3.33)

/-- `updateVisualIntensityFromDifficulty()`: combine the stored movement-based
intensity with the difficulty modifier and clamp to 1–5. -/
def updateVisualIntensityFromDifficulty (st : AIEngine) : AIEngine :=
  let currentDifficulty := st.adaptationSettings.currentDifficulty
  let movementBasedIntensity := st.adaptationSettings.visualIntensityLevel
  let combinedIntensity :=
    min 5 (max 1 (jsRound (((movementBasedIntensity : ℚ) +
      (difficultyIntensityModifier currentDifficulty : ℚ)) / 2)))
  { st with adaptationSettings :=
      { st.adaptationSettings with visualIntensityLevel := combinedIntensity } }

/-- The mean of `recentScores`, as computed at the top of
`calculateDifficulty`. -/
def averageRecentScore (st : AIEngine) : ℚ :=
  (st.performanceMetrics.recentScores.foldl (· + ·) 0) /
    (st.performanceMetrics.recentScores.length : ℚ)

/-- `scoreThreshold = Math.max(50, this.performanceMetrics.averageScore * 0.8)`. -/
def scoreThreshold (st : AIEngine) : ℚ :=
  max 50 (st.performanceMetrics.averageScore * 0.8)

/-- `highPerformanceThreshold = scoreThreshold * 1.5`. -/
def highPerformanceThreshold (st : AIEngine) : ℚ := scoreThreshold st * 1.5

/-- `lowPerformanceThreshold = scoreThreshold * 0.5`. -/
def lowPerformanceThreshold (st : AIEngine) : ℚ := scoreThreshold st * 0.5

/-- The tail of `calculateDifficulty`: install the updated performance
metrics, and if the difficulty changed, store it, append it to the
progression history and refresh the visual intensity. -/
def applyDifficultyChange (st : AIEngine) (pm : PerformanceMetrics)
    (newDifficulty currentDifficulty : Int) : AIEngine :=
  if newDifficulty ≠ currentDifficulty then
    updateVisualIntensityFromDifficulty
      { st with
        adaptationSettings :=
          { st.adaptationSettings with currentDifficulty := newDifficulty },
        performanceMetrics :=
          { pm with difficultyProgression := pm.difficultyProgression ++ [newDifficulty] } }
  else
    { st with performanceMetrics := pm }

/-- `calculateDifficulty()`: with fewer than 3 recent scores keep the current
difficulty; otherwise classify the recent mean against the high/low
thresholds, update the consecutive-performance streak counters, and after a
third consecutive high (low) evaluation raise (lower) the difficulty by one
within 1..10, resetting the streak counter that fired. -/
def calculateDifficulty (st : AIEngine) : AIEngine :=
  if st.performanceMetrics.recentScores.length < 3 then st
  else
    let currentDifficulty := st.adaptationSettings.currentDifficulty
    let pm := st.performanceMetrics
    let stepped : PerformanceMetrics × Int :=
      if highPerformanceThreshold st ≤ averageRecentScore st then
        let pmh := { pm with
          consecutiveHighPerformance := pm.consecutiveHighPerformance + 1,
          consecutiveLowPerformance := 0 }
        if 3 ≤ pmh.consecutiveHighPerformance ∧ currentDifficulty < 10 then
          ({ pmh with consecutiveHighPerformance := 0 }, min 10 (currentDifficulty + 1))
        else
          (pmh, currentDifficulty)
      else if averageRecentScore st ≤ lowPerformanceThreshold st then
        let pml := { pm with
          consecutiveLowPerformance := pm.consecutiveLowPerformance + 1,
          consecutiveHighPerformance := 0 }
        if 3 ≤ pml.consecutiveLowPerformance ∧ 1 < currentDifficulty then
          ({ pml with consecutiveLowPerformance := 0 }, max 1 (currentDifficulty - 1))
        else
          (pml, currentDifficulty)
      else
        ({ pm with consecutiveHighPerformance := 0, consecutiveLowPerformance := 0 },
         currentDifficulty)
    applyDifficultyChange st stepped.1 stepped.2 currentDifficulty

/-- `getStrategyByDifficulty(difficulty)`: difficulty at least 7 gives
challenging placement, at most 3 gives accessible placement, otherwise
random. -/
def getStrategyByDifficulty (difficulty : Int) : Strategy :=
  if 7 ≤ difficulty then Strategy.challenging
  else if difficulty ≤ 3 then Strategy.accessible
  else Strategy.random

/-- The guard `movementAnalysis.totalMovements < 20` of
`determinePlacementStrategy`. When the analysis is the neutral cold-start
record the field is absent, and in JavaScript `undefined < 20` evaluates to
`false`, so the guard only fires when the field is present. -/
def totalMovementsLtTwenty (totalMovements : Option Nat) : Bool :=
  match totalMovements with
  | some n => decide (n < 20)
  | none => false

/-- `determinePlacementStrategy()`: pick a strategy from the movement
analysis and the current difficulty, store it in `adaptationSettings` (only
on the non-guard path, as in the source), and return it. -/
def determinePlacementStrategy (st : AIEngine) : Strategy × AIEngine :=
  let movementAnalysis := analyzeMovementPatterns st
  let currentDifficulty := st.adaptationSettings.currentDifficulty
  if totalMovementsLtTwenty movementAnalysis.totalMovements then
    (getStrategyByDifficulty currentDifficulty, st)
  else
    let strategy :=
      if movementAnalysis.movementDiversity < 0.6 then Strategy.challenging
      else if 0.8 < movementAnalysis.movementDiversity then Strategy.accessible
      else getStrategyByDifficulty currentDifficulty
    let strategy :=
      if 7 ≤ currentDifficulty then Strategy.challenging
      else if currentDifficulty ≤ 2 then
        (if strategy = Strategy.challenging then Strategy.random else strategy)
      else strategy
    (strategy,
     { st with adaptationSettings :=
         { st.adaptationSettings with foodPlacementStrategy := strategy } })

/-- The exclusion test `excludePositions.some(pos => pos.x === p.x && pos.y
=== p.y)`. -/
def isExcluded (excludePositions : List Pos) (p : Pos) : Bool :=
  excludePositions.any (fun pos => pos.x == p.x && pos.y == p.y)

/-- The attempt loop of `getRandomFoodPosition`: each attempt consumes two
draws of the random stream; the first non-excluded draw is returned, and when
the fuel (100 attempts in the source) runs out the origin is returned. -/
def getRandomFoodPositionAux (st : AIEngine) (rng : Nat → Nat)
    (excludePositions : List Pos) : Nat → Nat → Pos
  | _, 0 => { x := 0, y := 0 }
  | attempts, fuel + 1 =>
    let x : Int := ((rng (2 * attempts) % st.gridWidth) * st.gridSize : Nat)
    let y : Int := ((rng (2 * attempts + 1) % st.gridHeight) * st.gridSize : Nat)
    let position : Pos := { x := x, y := y }
    if isExcluded excludePositions position then
      getRandomFoodPositionAux st rng excludePositions (attempts + 1) fuel
    else
      position

/-- `getRandomFoodPosition(excludePositions)`: up to 100 uniform draws over
the grid, falling back to the top-left corner `{x: 0, y: 0}`. -/
def getRandomFoodPosition (st : AIEngine) (rng : Nat → Nat)
    (excludePositions : List Pos) : Pos :=
  getRandomFoodPositionAux st rng excludePositions 0 100

/-- The default used for the (unreachable) out-of-range list read in the
challenging-placement index draw. -/
def defaultSpot : Spot :=
  { x := 0, y := 0, gridX := 0, gridY := 0, intensity := 0, rawCount := 0 }

/-- The `validColdspots` list of `getChallengingFoodPosition`: the coldspots
at threshold 0.3 with the excluded positions filtered out. -/
def validColdspots (st : AIEngine) (excludePositions : List Pos) : List Spot :=
  (getColdspots st 0.3).filter (fun spot =>
    !(isExcluded excludePositions { x := spot.x, y := spot.y }))

/-- `getChallengingFoodPosition(excludePositions)`: choose uniformly among
the coldest 30% (at least one) of the non-excluded coldspots at threshold
0.3, falling back to a random position when no valid coldspot exists. -/
def getChallengingFoodPosition (st : AIEngine) (rng : Nat → Nat)
    (excludePositions : List Pos) : Pos :=
  if 0 < (validColdspots st excludePositions).length then
    let topColdspots := (validColdspots st excludePositions).take
      (max 1 ((3 * (validColdspots st excludePositions).length) / 10))
    let randomIndex := rng 0 % topColdspots.length
    let s := topColdspots.getD randomIndex defaultSpot
    { x := s.x, y := s.y }
  else
    getRandomFoodPosition st rng excludePositions

/-- The `accessibleSpots` list of `getAccessibleFoodPosition`: the
non-excluded cells of moderate normalized intensity (0.2 to 0.6), collected
in row-major order. -/
def accessibleSpots (st : AIEngine) (excludePositions : List Pos) : List Pos :=
  let normalizedHeatmap := generateHeatmap st.movementHeatmap
  (List.range st.gridHeight).flatMap (fun y =>
    (List.range st.gridWidth).filterMap (fun x =>
      let intensity := cellAt normalizedHeatmap y x 0
      if 0.2 ≤ intensity ∧ intensity ≤ 0.6 then
        let position : Pos := { x := ((x * st.gridSize : Nat) : Int),
                                y := ((y * st.gridSize : Nat) : Int) }
        if isExcluded excludePositions position then none else some position
      else
        none))

/-- `getAccessibleFoodPosition(excludePositions)`: choose uniformly among the
accessible spots, falling back to a random position when none exists. -/
def getAccessibleFoodPosition (st : AIEngine) (rng : Nat → Nat)
    (excludePositions : List Pos) : Pos :=
  if 0 < (accessibleSpots st excludePositions).length then
    (accessibleSpots st excludePositions).getD
      (rng 0 % (accessibleSpots st excludePositions).length) { x := 0, y := 0 }
  else
    getRandomFoodPosition st rng excludePositions

/-- `suggestFoodPlacement(excludePositions)`: determine the placement
strategy (which may store it in the settings) and dispatch to the matching
position generator. -/
def suggestFoodPlacement (st : AIEngine) (rng : Nat → Nat)
    (excludePositions : List Pos) : Pos :=
  match determinePlacementStrategy st with
  | (Strategy.challenging, st1) => getChallengingFoodPosition st1 rng excludePositions
  | (Strategy.accessible, st1) => getAccessibleFoodPosition st1 rng excludePositions
  | (Strategy.random, st1) => getRandomFoodPosition st1 rng excludePositions

/-- The two fields of engine state that `setDifficulty(difficulty)` writes:
the stored difficulty and the difficulty-progression history. Values here
range over all JavaScript numbers (`ℚ`), because the source guard
`difficulty >= 1 && difficulty <= 10` has no integrality test — the engine
record keeps its difficulty in `ℤ` (an invariant of the difficulty
controller's own clamped unit steps), but this entry point can be called
with any number, so it is modelled on the full number domain. -/
structure DifficultyCell where
  currentDifficulty : ℚ
  difficultyProgression : List ℚ
deriving DecidableEq, Repr

/-- `setDifficulty(difficulty)`: accept any number in 1..10 (the guard does
not test integrality), storing it as-is and appending it to the
progression; silently ignore everything else, leaving both fields (and, in
the source, the rest of the engine) unchanged. -/
def setDifficulty (cell : DifficultyCell) (difficulty : ℚ) : DifficultyCell :=
  if 1 ≤ difficulty ∧ difficulty ≤ 10 then
    { currentDifficulty := difficulty,
      difficultyProgression := cell.difficultyProgression ++ [difficulty] }
  else
    cell

/-- `startGameSession()`. -/
def startGameSession (st : AIEngine) (now : ℚ) : AIEngine :=
  { st with performanceMetrics :=
      { st.performanceMetrics with gameStartTime := some now } }

/-- `endGameSession(finalScore)`: record the session score (keeping the last
5), refresh the average score and running average duration, clear the start
timestamp, and recalculate the difficulty. -/
def endGameSession (st : AIEngine) (finalScore : ℚ) (gameEndTime : ℚ) : AIEngine :=
  let gameDuration : ℚ :=
    match st.performanceMetrics.gameStartTime with
    | some t => gameEndTime - t
    | none => 0
  let pm := { st.performanceMetrics with
    totalGamesPlayed := st.performanceMetrics.totalGamesPlayed + 1 }
  let recent := pm.recentScores ++ [finalScore]
  let recent := if 5 < recent.length then recent.drop 1 else recent
  let averageScore : ℚ :=
    if 0 < recent.length then (recent.foldl (· + ·) 0) / (recent.length : ℚ) else 0
  let pm := { pm with recentScores := recent, averageScore := averageScore }
  let pm :=
    if 0 < gameDuration then
      { pm with averageGameDuration :=
          (pm.averageGameDuration * ((pm.totalGamesPlayed : ℚ) - 1) + gameDuration) /
            (pm.totalGamesPlayed : ℚ) }
    else pm
  let pm := { pm with gameStartTime := none }
  calculateDifficulty { st with performanceMetrics := pm }

/-- A persisted `performanceMetrics` object: every field may be absent, and a
present field overrides the in-memory one when spread over it. -/
structure PerformanceMetricsPatch where
  averageScore : Option ℚ := none
  averageGameDuration : Option ℚ := none
  recentScores : Option (List ℚ) := none
  difficultyProgression : Option (List Int) := none
  gameStartTime : Option (Option ℚ) := none
  totalGamesPlayed : Option Nat := none
  consecutiveHighPerformance : Option Nat := none
  consecutiveLowPerformance : Option Nat := none
deriving DecidableEq, Repr

/-- A persisted `adaptationSettings` object with possibly-absent fields. -/
structure AdaptationSettingsPatch where
  currentDifficulty : Option Int := none
  foodPlacementStrategy : Option Strategy := none
  visualIntensityLevel : Option Int := none
deriving DecidableEq, Repr

/-- A persisted behavior-data snapshot handed to `AIEngine.loadBehaviorData`;
`none` is an absent (falsy) top-level field. -/
structure BehaviorSnapshot where
  movementHeatmap : Option (List (List Nat)) := none
  performanceMetrics : Option PerformanceMetricsPatch := none
  adaptationSettings : Option AdaptationSettingsPatch := none
deriving DecidableEq, Repr

/-- The spread `{ ...this.performanceMetrics, ...data.performanceMetrics }`:
fields present in the patch win, absent fields keep the current value. -/
def mergePerformanceMetrics (pm : PerformanceMetrics) (p : PerformanceMetricsPatch) :
    PerformanceMetrics :=
  { averageScore := p.averageScore.getD pm.averageScore,
    averageGameDuration := p.averageGameDuration.getD pm.averageGameDuration,
    recentScores := p.recentScores.getD pm.recentScores,
    difficultyProgression := p.difficultyProgression.getD pm.difficultyProgression,
    gameStartTime := p.gameStartTime.getD pm.gameStartTime,
    totalGamesPlayed := p.totalGamesPlayed.getD pm.totalGamesPlayed,
    consecutiveHighPerformance :=
      p.consecutiveHighPerformance.getD pm.consecutiveHighPerformance,
    consecutiveLowPerformance :=
      p.consecutiveLowPerformance.getD pm.consecutiveLowPerformance }

/-- The spread `{ ...this.adaptationSettings, ...data.adaptationSettings }`. -/
def mergeAdaptationSettings (a : AdaptationSettings) (p : AdaptationSettingsPatch) :
    AdaptationSettings :=
  { currentDifficulty := p.currentDifficulty.getD a.currentDifficulty,
    foodPlacementStrategy := p.foodPlacementStrategy.getD a.foodPlacementStrategy,
    visualIntensityLevel := p.visualIntensityLevel.getD a.visualIntensityLevel }

/-- `AIEngine.loadBehaviorData(data)`: for each of the three top-level fields,
if present (truthy) apply it — the heatmap by replacement, the two records by
field-level spread. No validation is performed and nothing is returned. -/
def loadBehaviorData (st : AIEngine) (data : BehaviorSnapshot) : AIEngine :=
  let st :=
    match data.movementHeatmap with
    | some heatmap => { st with movementHeatmap := heatmap }
    | none => st
  let st :=
    match data.performanceMetrics with
    | some p => { st with performanceMetrics := mergePerformanceMetrics st.performanceMetrics p }
    | none => st
  match data.adaptationSettings with
  | some p => { st with adaptationSettings := mergeAdaptationSettings st.adaptationSettings p }
  | none => st

/-- `isValidAIBehaviorData` from `src/js/types.js`: the snapshot must carry a
heatmap, performance metrics with numeric average fields and the two arrays,
and adaptation settings with a numeric difficulty, a known strategy string
and a numeric intensity. Structural type checks that the Lean types already
enforce reduce here to presence of the corresponding fields. -/
def isValidAIBehaviorData (data : BehaviorSnapshot) : Bool :=
  data.movementHeatmap.isSome &&
  (match data.performanceMetrics with
   | some p =>
     p.averageScore.isSome && p.averageGameDuration.isSome &&
     p.recentScores.isSome && p.difficultyProgression.isSome
   | none => false) &&
  (match data.adaptationSettings with
   | some a =>
     a.currentDifficulty.isSome && a.foodPlacementStrategy.isSome &&
     a.visualIntensityLevel.isSome
   | none => false)

/-- `StorageManager.validateBehaviorData(data)`: requires the three top-level
properties to be present, the heatmap to be an array and the two records to
be objects; in the typed model this is presence of the three fields. -/
def validateBehaviorData (data : Option BehaviorSnapshot) : Bool :=
  match data with
  | none => false
  | some d =>
    d.movementHeatmap.isSome && d.performanceMetrics.isSome &&
    d.adaptationSettings.isSome

/-- The `AIEngine` constructor: grid dimensions from canvas size and cell
size, empty history, zero heatmap, neutral metrics, difficulty 1, random
placement, intensity 1. -/
def mkAIEngine (gridSize canvasWidth canvasHeight : Nat) : AIEngine :=
  let gridWidth := canvasWidth / gridSize
  let gridHeight := canvasHeight / gridSize
  { gridSize := gridSize, canvasWidth := canvasWidth, canvasHeight := canvasHeight,
    gridWidth := gridWidth, gridHeight := gridHeight,
    movementHistory := [],
    movementHeatmap := initializeHeatmap gridWidth gridHeight,
    performanceMetrics :=
      { averageScore := 0, averageGameDuration := 0, recentScores := [],
        difficultyProgression := [1], gameStartTime := none, totalGamesPlayed := 0,
        consecutiveHighPerformance := 0, consecutiveLowPerformance := 0 },
    adaptationSettings :=
      { currentDifficulty := 1, foodPlacementStrategy := Strategy.random,
        visualIntensityLevel := 1 } }

unseal Rat.add Rat.sub Rat.mul Rat.inv Rat.ofScientific

section SortLemmas

variable {α : Type} {le : α → α → Bool}

lemma mem_jsInsert {a x : α} {l : List α} :
    x ∈ jsInsert le a l ↔ x = a ∨ x ∈ l := by
  induction l with
  | nil => simp [jsInsert]
  | cons b l ih =>
    unfold jsInsert
    split
    · simp only [List.mem_cons, ih]
      tauto
    · simp only [List.mem_cons]

lemma mem_jsSortBy {x : α} {l : List α} :
    x ∈ jsSortBy le l ↔ x ∈ l := by
  induction l with
  | nil => simp [jsSortBy]
  | cons b l ih => simp [jsSortBy, mem_jsInsert, ih]

lemma pairwise_jsInsert
    (htrans : ∀ a b c, le a b = true → le b c = true → le a c = true)
    (htotal : ∀ a b, le a b = true ∨ le b a = true)
    {a : α} {l : List α} (h : l.Pairwise (fun x y => le x y = true)) :
    (jsInsert le a l).Pairwise (fun x y => le x y = true) := by
  induction l with
  | nil => simp [jsInsert]
  | cons b l ih =>
    rcases h with _ | ⟨h1, h2⟩
    unfold jsInsert
    split
    · rename_i hba
      rw [Bool.and_eq_true, Bool.not_eq_true'] at hba
      refine List.Pairwise.cons ?_ (ih h2)
      intro c hc
      rcases mem_jsInsert.1 hc with rfl | hc
      · exact hba.1
      · exact h1 c hc
    · rename_i hba
      rw [Bool.and_eq_true, Bool.not_eq_true'] at hba
      push_neg at hba
      have hab : le a b = true := by
        rcases htotal a b with h | h
        · exact h
        · simpa using hba h
      refine List.Pairwise.cons ?_ (List.Pairwise.cons h1 h2)
      intro c hc
      rcases List.mem_cons.1 hc with rfl | hc
      · exact hab
      · exact htrans a b c hab (h1 c hc)

lemma pairwise_jsSortBy
    (htrans : ∀ a b c, le a b = true → le b c = true → le a c = true)
    (htotal : ∀ a b, le a b = true ∨ le b a = true)
    (l : List α) :
    (jsSortBy le l).Pairwise (fun x y => le x y = true) := by
  induction l with
  | nil => simp [jsSortBy]
  | cons b l ih => exact pairwise_jsInsert htrans htotal ih

lemma getD_mem_or_default (l : List α) (i : Nat) (d : α) :
    l.getD i d ∈ l ∨ l.getD i d = d := by
  by_cases h : i < l.length
  · left
    rw [l.getD_eq_getElem d h]
    exact List.getElem_mem h
  · right
    exact l.getD_eq_default d (by omega)

end SortLemmas

lemma isExcluded_eq_true_iff {excl : List Pos} {p : Pos} :
    isExcluded excl p = true ↔ p ∈ excl := by
  unfold isExcluded
  rw [List.any_eq_true]
  constructor
  · rintro ⟨q, hq, hqp⟩
    rw [Bool.and_eq_true, beq_iff_eq, beq_iff_eq] at hqp
    have : q = p := by
      cases q; cases p
      simp only at hqp
      simp [hqp.1, hqp.2]
    exact this ▸ hq
  · intro hp
    exact ⟨p, hp, by simp⟩

lemma isExcluded_eq_false_iff {excl : List Pos} {p : Pos} :
    isExcluded excl p = false ↔ p ∉ excl := by
  rw [← Bool.not_eq_true, not_iff_not]
  exact isExcluded_eq_true_iff

section ListModifyLemmas

variable {α : Type}

lemma length_listModify (l : List α) (n : Nat) (f : α → α) :
    (listModify l n f).length = l.length := by
  induction l generalizing n with
  | nil => rfl
  | cons a l ih =>
    cases n with
    | zero => rfl
    | succ n => simp [listModify, ih]

lemma listModify_of_length_le (l : List α) (n : Nat) (f : α → α)
    (h : l.length ≤ n) : listModify l n f = l := by
  induction l generalizing n with
  | nil => rfl
  | cons a l ih =>
    cases n with
    | zero => simp at h
    | succ n =>
      simp only [listModify, List.cons.injEq, true_and]
      exact ih n (by simpa using h)

lemma getD_listModify (l : List α) (n : Nat) (f : α → α) (i : Nat) (d : α) :
    (listModify l n f).getD i d =
      if i = n ∧ n < l.length then f (l.getD i d) else l.getD i d := by
  induction l generalizing n i with
  | nil => simp [listModify]
  | cons a l ih =>
    cases n with
    | zero =>
      cases i with
      | zero => simp [listModify]
      | succ i => simp [listModify]
    | succ n =>
      cases i with
      | zero => simp [listModify]
      | succ i =>
        simp only [listModify, List.getD_cons_succ]
        rw [ih n i]
        by_cases h : i = n ∧ n < l.length
        · rw [if_pos h, if_pos ⟨by omega, by simp only [List.length_cons]; omega⟩]
        · rw [if_neg h, if_neg (by simp only [List.length_cons]; omega)]

end ListModifyLemmas

/-- A freshly constructed engine (20-pixel cells on a 400×400 canvas, so a
20×20 grid) whose difficulty has been raised to the mid-range value 5. -/
def stDifficultyFive : AIEngine :=
  let st := mkAIEngine 20 400 400
  { st with adaptationSettings := { st.adaptationSettings with currentDifficulty := 5 } }

/-- C1: with fewer than 20 recorded movements the placement strategy is
claimed to come purely from the difficulty (difficulty 5 giving `random`).
On a fresh engine with zero recorded movements and difficulty 5 the source
instead returns `challenging`: the neutral analysis carries no
`totalMovements` field, `undefined < 20` is `false` in JavaScript, so the
cold-start guard does not fire and the diversity branch (diversity 0 < 0.6)
decides, contradicting both the claim and the source's own comment that
insufficient data selects the strategy from difficulty. -/
theorem determinePlacementStrategy_cold_start_divergence :
    stDifficultyFive.movementHistory.length = 0 ∧
    (analyzeMovementPatterns stDifficultyFive).totalMovements = none ∧
    (determinePlacementStrategy stDifficultyFive).1 = Strategy.challenging ∧
    getStrategyByDifficulty 5 = Strategy.random := by
  decide

/-- C4: the difficulty-based visual-intensity modifier is claimed to lie in
1..3 for every difficulty in 1..10, but at difficulty 10 the source's
`Math.ceil(10 / 3.33)` evaluates to 4 (since 3.33 · 3 = 9.99 < 10),
contradicting the claim and the source's own comment `Maps 1-10 to 1-3`. -/
theorem difficultyIntensityModifier_escapes_range :
    difficultyIntensityModifier 10 = 4 ∧
    ¬(1 ≤ difficultyIntensityModifier 10 ∧ difficultyIntensityModifier 10 ≤ 3) ∧
    (difficultyIntensityModifier 9 = 3 ∧ difficultyIntensityModifier 1 = 1) := by
  decide

/-- A structurally invalid snapshot: it carries a heatmap but no performance
metrics and no adaptation settings. -/
def badSnapshot : BehaviorSnapshot := { movementHeatmap := some [[5]] }

/-- C5 counterexample: `isValidAIBehaviorData` rejects `badSnapshot`, yet
`AIEngine.loadBehaviorData` applies its heatmap anyway — the snapshot is
partially applied, the in-memory state changes, and no rejection signal
exists (the function is state-to-state with no error return). -/
theorem loadBehaviorData_applies_invalid_snapshot :
    isValidAIBehaviorData badSnapshot = false ∧
    (loadBehaviorData (mkAIEngine 20 400 400) badSnapshot).movementHeatmap = [[5]] ∧
    loadBehaviorData (mkAIEngine 20 400 400) badSnapshot ≠ mkAIEngine 20 400 400 := by
  decide

/-- C5 (amended): `AIEngine.loadBehaviorData` performs unconditional
field-level merging with no structural validation: even for a snapshot that
`isValidAIBehaviorData` rejects, every present top-level field is applied
(the heatmap by replacement, the records by field-wise spread) and every
absent field keeps its current value; nothing is returned. -/
theorem loadBehaviorData_merges_without_validation (st : AIEngine)
    (data : BehaviorSnapshot) (hinvalid : isValidAIBehaviorData data = false) :
    (loadBehaviorData st data).movementHeatmap =
      data.movementHeatmap.getD st.movementHeatmap ∧
    (loadBehaviorData st data).performanceMetrics =
      (match data.performanceMetrics with
       | some p => mergePerformanceMetrics st.performanceMetrics p
       | none => st.performanceMetrics) ∧
    (loadBehaviorData st data).adaptationSettings =
      (match data.adaptationSettings with
       | some p => mergeAdaptationSettings st.adaptationSettings p
       | none => st.adaptationSettings) := by
  rcases data with ⟨mh, pm, as⟩
  cases mh <;> cases pm <;> cases as <;>
    simp [loadBehaviorData, Option.getD]

/-- Witness for C5's amended theorem at the concrete invalid snapshot. -/
theorem loadBehaviorData_merges_without_validation_witness :
    isValidAIBehaviorData badSnapshot = false ∧
    (loadBehaviorData (mkAIEngine 20 400 400) badSnapshot).movementHeatmap =
      badSnapshot.movementHeatmap.getD (mkAIEngine 20 400 400).movementHeatmap :=
  ⟨by decide,
   (loadBehaviorData_merges_without_validation (mkAIEngine 20 400 400) badSnapshot
     (by decide)).1⟩

/-- A persisted snapshot carrying an out-of-range difficulty. -/
def rogueSnapshot : BehaviorSnapshot :=
  { adaptationSettings := some { currentDifficulty := some 99 } }

/-- C6 counterexample: `loadBehaviorData` — one of the public entry points
the claim names — merges a snapshot difficulty with no range check at all:
loading `rogueSnapshot` into a fresh engine (difficulty 1) leaves the stored
difficulty at 99, outside [1, 10]. (`setDifficulty` violates the claim too,
by accepting an in-range non-integer; see the amended theorem.) -/
theorem loadBehaviorData_breaks_difficulty_bounds :
    (mkAIEngine 20 400 400).adaptationSettings.currentDifficulty = 1 ∧
    (loadBehaviorData (mkAIEngine 20 400 400)
      rogueSnapshot).adaptationSettings.currentDifficulty = 99 ∧
    ¬((loadBehaviorData (mkAIEngine 20 400 400)
      rogueSnapshot).adaptationSettings.currentDifficulty ≤ 10) := by
  decide

lemma currentDifficulty_updateVisualIntensityFromDifficulty (st : AIEngine) :
    (updateVisualIntensityFromDifficulty st).adaptationSettings.currentDifficulty =
      st.adaptationSettings.currentDifficulty := rfl

lemma currentDifficulty_applyDifficultyChange (st : AIEngine)
    (pm : PerformanceMetrics) (newDifficulty currentDifficulty : Int) :
    (applyDifficultyChange st pm newDifficulty
        currentDifficulty).adaptationSettings.currentDifficulty =
      if newDifficulty ≠ currentDifficulty then newDifficulty
      else st.adaptationSettings.currentDifficulty := by
  unfold applyDifficultyChange
  split <;> rfl

/-- The difficulty after one `calculateDifficulty` call is either unchanged,
or a clamped increment taken only below 10, or a clamped decrement taken
only above 1. -/
lemma calculateDifficulty_difficulty_cases (st : AIEngine) :
    (calculateDifficulty st).adaptationSettings.currentDifficulty =
      st.adaptationSettings.currentDifficulty ∨
    ((calculateDifficulty st).adaptationSettings.currentDifficulty =
       min 10 (st.adaptationSettings.currentDifficulty + 1) ∧
     st.adaptationSettings.currentDifficulty < 10) ∨
    ((calculateDifficulty st).adaptationSettings.currentDifficulty =
       max 1 (st.adaptationSettings.currentDifficulty - 1) ∧
     1 < st.adaptationSettings.currentDifficulty) := by
  unfold calculateDifficulty
  split
  · left; rfl
  · dsimp only
    split
    · split
      · rename_i hguard
        right; left
        refine ⟨?_, hguard.2⟩
        rw [currentDifficulty_applyDifficultyChange]
        rw [if_pos (by omega)]
      · left
        rw [currentDifficulty_applyDifficultyChange, if_neg (by simp)]
    · split
      · split
        · rename_i hguard
          right; right
          refine ⟨?_, hguard.2⟩
          rw [currentDifficulty_applyDifficultyChange]
          rw [if_pos (by omega)]
        · left
          rw [currentDifficulty_applyDifficultyChange, if_neg (by simp)]
      · left
        rw [currentDifficulty_applyDifficultyChange, if_neg (by simp)]

lemma endGameSession_eq_calculateDifficulty (st : AIEngine)
    (finalScore gameEndTime : ℚ) :
    ∃ pm : PerformanceMetrics,
      endGameSession st finalScore gameEndTime =
        calculateDifficulty { st with performanceMetrics := pm } := by
  unfold endGameSession
  exact ⟨_, rfl⟩

/-- C6 (amended): `setDifficulty` rejects out-of-range numbers silently —
no exception, and the state it writes (the stored difficulty and the
progression history) is left unchanged — and it preserves the [1,10] range
on the values it accepts; but its guard has no integrality test, so an
in-range non-integer number such as 2.5 is stored as-is, breaking the
integrality half of the invariant. `calculateDifficulty` and
`endGameSession` do preserve the [1,10] bounds (clamped, guarded unit
steps). `loadBehaviorData` merges a persisted difficulty with no range
check at all (see the counterexample). So the integer-in-[1,10] invariant
survives only the difficulty controller's own updates: both `setDifficulty`
(via a non-integer in-range argument) and `loadBehaviorData` (via an
arbitrary snapshot value) are public entry points that can break it. -/
theorem difficulty_bounds_under_entry_points (st : AIEngine)
    (cell : DifficultyCell) (d : ℚ) (finalScore gameEndTime : ℚ)
    (hlo : 1 ≤ st.adaptationSettings.currentDifficulty)
    (hhi : st.adaptationSettings.currentDifficulty ≤ 10) :
    (¬(1 ≤ d ∧ d ≤ 10) → setDifficulty cell d = cell) ∧
    ((1 ≤ d ∧ d ≤ 10) →
      (setDifficulty cell d).currentDifficulty = d ∧
      1 ≤ (setDifficulty cell d).currentDifficulty ∧
      (setDifficulty cell d).currentDifficulty ≤ 10) ∧
    ((setDifficulty { currentDifficulty := 1, difficultyProgression := [1] }
        (5/2)).currentDifficulty = 5/2 ∧
     ∀ n : ℤ,
       (setDifficulty { currentDifficulty := 1, difficultyProgression := [1] }
         (5/2)).currentDifficulty ≠ (n : ℚ)) ∧
    (1 ≤ (calculateDifficulty st).adaptationSettings.currentDifficulty ∧
     (calculateDifficulty st).adaptationSettings.currentDifficulty ≤ 10) ∧
    (1 ≤ (endGameSession st finalScore
            gameEndTime).adaptationSettings.currentDifficulty ∧
     (endGameSession st finalScore
            gameEndTime).adaptationSettings.currentDifficulty ≤ 10) := by
  refine ⟨?_, ?_, ⟨?_, ?_⟩, ?_, ?_⟩
  · intro h
    unfold setDifficulty
    rw [if_neg h]
  · intro h
    unfold setDifficulty
    rw [if_pos h]
    exact ⟨rfl, h.1, h.2⟩
  · unfold setDifficulty
    rw [if_pos (by decide)]
  · intro n hn
    unfold setDifficulty at hn
    rw [if_pos (by decide)] at hn
    have hn2 : ((5:ℚ)/2) = (n:ℚ) := hn
    have hden : ((5:ℚ)/2).den = 2 := by decide
    rw [hn2, Rat.den_intCast n] at hden
    exact absurd hden (by decide)
  · rcases calculateDifficulty_difficulty_cases st with h | ⟨h, hd⟩ | ⟨h, hd⟩ <;>
      rw [h] <;> omega
  · obtain ⟨pm, hpm⟩ := endGameSession_eq_calculateDifficulty st finalScore gameEndTime
    rw [hpm]
    rcases calculateDifficulty_difficulty_cases
        { st with performanceMetrics := pm } with h | ⟨h, hd⟩ | ⟨h, hd⟩ <;>
      rw [h] at * <;> simp only at * <;> omega

/-- Witness for C6's amended theorem on a fresh engine, a fresh difficulty
cell, an out-of-range `setDifficulty` argument, and one finished session. -/
theorem difficulty_bounds_under_entry_points_witness :
    (1 ≤ (mkAIEngine 20 400 400).adaptationSettings.currentDifficulty ∧
     (mkAIEngine 20 400 400).adaptationSettings.currentDifficulty ≤ 10) ∧
    ¬(1 ≤ (42:ℚ) ∧ (42:ℚ) ≤ 10) ∧
    ((¬(1 ≤ (42:ℚ) ∧ (42:ℚ) ≤ 10) →
       setDifficulty { currentDifficulty := 1, difficultyProgression := [1] } 42 =
         { currentDifficulty := 1, difficultyProgression := [1] }) ∧
     ((1 ≤ (42:ℚ) ∧ (42:ℚ) ≤ 10) →
       (setDifficulty { currentDifficulty := 1, difficultyProgression := [1] }
          42).currentDifficulty = 42 ∧
       1 ≤ (setDifficulty { currentDifficulty := 1, difficultyProgression := [1] }
          42).currentDifficulty ∧
       (setDifficulty { currentDifficulty := 1, difficultyProgression := [1] }
          42).currentDifficulty ≤ 10) ∧
     ((setDifficulty { currentDifficulty := 1, difficultyProgression := [1] }
         (5/2)).currentDifficulty = 5/2 ∧
      ∀ n : ℤ,
        (setDifficulty { currentDifficulty := 1, difficultyProgression := [1] }
          (5/2)).currentDifficulty ≠ (n : ℚ)) ∧
     (1 ≤ (calculateDifficulty (mkAIEngine 20 400 400)).adaptationSettings.currentDifficulty ∧
      (calculateDifficulty (mkAIEngine 20 400 400)).adaptationSettings.currentDifficulty ≤ 10) ∧
     (1 ≤ (endGameSession (mkAIEngine 20 400 400) 30
             100).adaptationSettings.currentDifficulty ∧
      (endGameSession (mkAIEngine 20 400 400) 30
             100).adaptationSettings.currentDifficulty ≤ 10)) :=
  ⟨by decide, by decide,
   difficulty_bounds_under_entry_points (mkAIEngine 20 400 400)
     { currentDifficulty := 1, difficultyProgression := [1] } 42 30 100
     (by decide) (by decide)⟩

/-- C7: recording a movement at a position whose floor-divided grid
coordinates fall outside the grid leaves every heatmap cell unchanged (and,
being a total function, cannot throw); for an in-bounds position exactly the
counter at that grid index grows by one and every other cell is unchanged
(cell values are natural numbers, hence always non-negative integers). -/
theorem updateHeatmapCell_spec (gridSize gridWidth gridHeight : Nat) (pos : Pos)
    (hm : List (List Nat)) (hlen : hm.length = gridHeight)
    (hrow : ∀ row ∈ hm, row.length = gridWidth) :
    (¬(0 ≤ pos.x.fdiv gridSize ∧ pos.x.fdiv gridSize < gridWidth ∧
       0 ≤ pos.y.fdiv gridSize ∧ pos.y.fdiv gridSize < gridHeight) →
      updateHeatmapCell gridSize gridWidth gridHeight pos hm = hm) ∧
    ((0 ≤ pos.x.fdiv gridSize ∧ pos.x.fdiv gridSize < gridWidth ∧
      0 ≤ pos.y.fdiv gridSize ∧ pos.y.fdiv gridSize < gridHeight) →
      ∀ y x : Nat,
        cellAt (updateHeatmapCell gridSize gridWidth gridHeight pos hm) y x 0 =
          cellAt hm y x 0 +
            (if y = (pos.y.fdiv gridSize).toNat ∧ x = (pos.x.fdiv gridSize).toNat
             then 1 else 0)) := by
  constructor
  · intro h
    unfold updateHeatmapCell
    rw [if_neg h]
  · intro h y x
    obtain ⟨hx0, hxw, hy0, hyh⟩ := h
    unfold updateHeatmapCell
    rw [if_pos ⟨hx0, hxw, hy0, hyh⟩]
    unfold cellAt
    rw [getD_listModify]
    by_cases hy : y = (pos.y.fdiv gridSize).toNat
    · have hylt : (pos.y.fdiv gridSize).toNat < hm.length := by omega
      rw [if_pos ⟨hy, hylt⟩, getD_listModify]
      by_cases hx : x = (pos.x.fdiv gridSize).toNat
      · have hxlt : (pos.x.fdiv gridSize).toNat < (hm.getD y []).length := by
          have hmem : hm.getD y [] ∈ hm := by
            rw [hm.getD_eq_getElem [] (by omega)]
            exact List.getElem_mem (by omega)
          rw [hrow _ hmem]
          omega
        rw [if_pos ⟨hx, hxlt⟩, if_pos ⟨hy, hx⟩]
      · rw [if_neg (by tauto), if_neg (by tauto)]
        simp
    · rw [if_neg (by tauto), if_neg (by tauto)]
      simp

/-- Witness for C7 on a 2×2 grid of 20-pixel cells: the out-of-bounds
position (-1, 0) leaves the zero heatmap unchanged, and the in-bounds
position (20, 0) increments exactly the cell at grid index (row 0,
column 1). -/
theorem updateHeatmapCell_spec_witness :
    updateHeatmapCell 20 2 2 { x := -1, y := 0 } (initializeHeatmap 2 2) =
      initializeHeatmap 2 2 ∧
    cellAt (updateHeatmapCell 20 2 2 { x := 20, y := 0 } (initializeHeatmap 2 2)) 0 1 0 =
      cellAt (initializeHeatmap 2 2) 0 1 0 + 1 := by
  constructor
  · exact (updateHeatmapCell_spec 20 2 2 { x := -1, y := 0 }
      (initializeHeatmap 2 2) (by decide) (by decide)).1 (by decide)
  · have h := (updateHeatmapCell_spec 20 2 2 { x := 20, y := 0 }
      (initializeHeatmap 2 2) (by decide) (by decide)).2 (by decide) 0 1
    rw [if_pos (by decide)] at h
    exact h

section HeatmapMaxLemmas

lemma le_foldl_max (l : List Nat) (a : Nat) :
    a ≤ l.foldl (fun m v => max m v) a := by
  induction l generalizing a with
  | nil => exact le_refl a
  | cons b l ih => exact le_trans (le_max_left a b) (ih (max a b))

lemma mem_le_foldl_max (l : List Nat) (a : Nat) :
    ∀ x ∈ l, x ≤ l.foldl (fun m v => max m v) a := by
  induction l generalizing a with
  | nil => intro x hx; simp at hx
  | cons b l ih =>
    intro x hx
    rcases List.mem_cons.1 hx with rfl | hx
    · exact le_trans (le_max_right a x) (le_foldl_max l (max a x))
    · exact ih (max a b) x hx

lemma foldl_max_eq_init_or_mem (l : List Nat) (a : Nat) :
    l.foldl (fun m v => max m v) a = a ∨ l.foldl (fun m v => max m v) a ∈ l := by
  induction l generalizing a with
  | nil => left; rfl
  | cons b l ih =>
    rcases ih (max a b) with h | h
    · rcases max_choice a b with hab | hab
      · left; rw [List.foldl_cons, h, hab]
      · right; rw [List.foldl_cons, h, hab]; exact List.mem_cons_self b l
    · right; exact List.mem_cons_of_mem b h

lemma heatmapMax_aux_le (g : List (List Nat)) (a : Nat) :
    a ≤ g.foldl (fun m row => row.foldl (fun m' v => max m' v) m) a := by
  induction g generalizing a with
  | nil => exact le_refl a
  | cons row g ih =>
    exact le_trans (le_foldl_max row a) (ih _)

lemma cell_le_heatmapMax_aux (g : List (List Nat)) (a : Nat) :
    ∀ row ∈ g, ∀ v ∈ row,
      v ≤ g.foldl (fun m row => row.foldl (fun m' v => max m' v) m) a := by
  induction g generalizing a with
  | nil => intro row hrow; simp at hrow
  | cons r g ih =>
    intro row hrow v hv
    rcases List.mem_cons.1 hrow with rfl | hrow
    · exact le_trans (mem_le_foldl_max row a v hv) (heatmapMax_aux_le g _)
    · exact ih _ row hrow v hv

lemma cell_le_heatmapMax (g : List (List Nat)) :
    ∀ row ∈ g, ∀ v ∈ row, v ≤ heatmapMax g :=
  cell_le_heatmapMax_aux g 0

lemma heatmapMax_aux_eq_init_or_mem (g : List (List Nat)) (a : Nat) :
    g.foldl (fun m row => row.foldl (fun m' v => max m' v) m) a = a ∨
    ∃ row ∈ g, g.foldl (fun m row => row.foldl (fun m' v => max m' v) m) a ∈ row := by
  induction g generalizing a with
  | nil => left; rfl
  | cons r g ih =>
    rcases ih (r.foldl (fun m' v => max m' v) a) with h | h
    · rw [List.foldl_cons, h]
      rcases foldl_max_eq_init_or_mem r a with h' | h'
      · left; exact h'
      · right; exact ⟨r, List.mem_cons_self r g, h'⟩
    · right
      obtain ⟨row, hrow, hmem⟩ := h
      exact ⟨row, List.mem_cons_of_mem r hrow, hmem⟩

lemma heatmapMax_eq_zero_or_mem (g : List (List Nat)) :
    heatmapMax g = 0 ∨ ∃ row ∈ g, heatmapMax g ∈ row :=
  heatmapMax_aux_eq_init_or_mem g 0

end HeatmapMaxLemmas

/-- C10: `generateHeatmap` returns a matrix with the same row lengths, every
value in [0, 1]; an all-zero grid gives all zeros (no division is attempted
because the zero maximum takes the guard branch), and a grid with at least
one non-zero counter produces a matrix attaining the value 1 with every
value at most 1 — its maximum is exactly 1. -/
theorem generateHeatmap_normalization (g : List (List Nat)) :
    ((generateHeatmap g).map List.length = g.map List.length) ∧
    (∀ row ∈ generateHeatmap g, ∀ v ∈ row, 0 ≤ v ∧ v ≤ 1) ∧
    ((∀ row ∈ g, ∀ v ∈ row, v = 0) →
      ∀ row ∈ generateHeatmap g, ∀ v ∈ row, v = 0) ∧
    ((∃ row ∈ g, ∃ v ∈ row, v ≠ 0) →
      (∃ row ∈ generateHeatmap g, (1:ℚ) ∈ row) ∧
      ∀ row ∈ generateHeatmap g, ∀ v ∈ row, v ≤ 1) := by
  have hgen : generateHeatmap g =
      g.map (fun row => row.map (normalizeCell (heatmapMax g))) := rfl
  have hval : ∀ row ∈ generateHeatmap g, ∀ v ∈ row, 0 ≤ v ∧ v ≤ 1 := by
    intro row hrow v hv
    rw [hgen] at hrow
    obtain ⟨r, hr, rfl⟩ := List.mem_map.1 hrow
    obtain ⟨w, hw, rfl⟩ := List.mem_map.1 hv
    unfold normalizeCell
    split
    · rename_i hpos
      have hle : w ≤ heatmapMax g := cell_le_heatmapMax g r hr w hw
      constructor
      · positivity
      · rw [div_le_one (by exact_mod_cast hpos)]
        exact_mod_cast hle
    · exact ⟨le_refl 0, by norm_num⟩
  refine ⟨?_, hval, ?_, ?_⟩
  · rw [hgen]
    simp [List.map_map, Function.comp_def]
  · intro hzero row hrow v hv
    have hmax : heatmapMax g = 0 := by
      rcases heatmapMax_eq_zero_or_mem g with h | ⟨row', hrow', hmem⟩
      · exact h
      · exact hzero row' hrow' _ hmem
    rw [hgen] at hrow
    obtain ⟨r, hr, rfl⟩ := List.mem_map.1 hrow
    obtain ⟨w, hw, rfl⟩ := List.mem_map.1 hv
    unfold normalizeCell
    rw [if_neg (by omega)]
  · intro hnz
    obtain ⟨row0, hrow0, v0, hv0, hv0nz⟩ := hnz
    have hmaxpos : 0 < heatmapMax g := by
      have := cell_le_heatmapMax g row0 hrow0 v0 hv0
      omega
    constructor
    · rcases heatmapMax_eq_zero_or_mem g with h | ⟨row', hrow', hmem⟩
      · omega
      · refine ⟨row'.map (normalizeCell (heatmapMax g)), ?_, ?_⟩
        · rw [hgen]
          exact List.mem_map_of_mem _ hrow'
        · refine List.mem_map.2 ⟨heatmapMax g, hmem, ?_⟩
          unfold normalizeCell
          rw [if_pos hmaxpos]
          exact div_self (by exact_mod_cast hmaxpos.ne')
    · intro row hrow v hv
      exact (hval row hrow v hv).2

/-- Witness for C10 on a concrete 2×2 grid with a non-zero cell. -/
theorem generateHeatmap_normalization_witness :
    (∃ row ∈ ([[0, 2], [1, 0]] : List (List Nat)), ∃ v ∈ row, v ≠ 0) ∧
    ((∃ row ∈ generateHeatmap [[0, 2], [1, 0]], (1:ℚ) ∈ row) ∧
     ∀ row ∈ generateHeatmap [[0, 2], [1, 0]], ∀ v ∈ row, v ≤ 1) :=
  ⟨by decide, (generateHeatmap_normalization [[0, 2], [1, 0]]).2.2.2 (by decide)⟩

/-- The history maintenance step of `recordMovement`: push, then evict the
oldest entry when the size limit is exceeded. -/
def boundedPush (h : List MovementEvent) (e : MovementEvent) : List MovementEvent :=
  let h := h ++ [e]
  if maxHistorySize < h.length then h.drop 1 else h

lemma movementHistory_updateVisualIntensityFromMovement (st : AIEngine) :
    (updateVisualIntensityFromMovement st).movementHistory = st.movementHistory := by
  unfold updateVisualIntensityFromMovement
  dsimp only
  split <;> rfl

lemma movementHistory_recordMovement (st : AIEngine) (now : Nat) (position : Pos)
    (direction : Dir) (gameContext : GameContext) :
    (recordMovement st now position direction gameContext).movementHistory =
      boundedPush st.movementHistory
        { timestamp := now, position := position, direction := direction,
          gameContext := gameContext } := by
  unfold recordMovement boundedPush
  rw [movementHistory_updateVisualIntensityFromMovement]

lemma length_boundedPush_le (h : List MovementEvent) (e : MovementEvent)
    (hcap : h.length ≤ maxHistorySize) :
    (boundedPush h e).length ≤ maxHistorySize := by
  unfold boundedPush
  dsimp only
  split <;> simp_all

lemma boundedPush_eq_drop (h : List MovementEvent) (e : MovementEvent)
    (hcap : h.length ≤ maxHistorySize) :
    boundedPush h e = (h ++ [e]).drop ((h.length + 1) - maxHistorySize) := by
  unfold boundedPush
  dsimp only
  split
  · rename_i hlen
    simp only [List.length_append, List.length_cons, List.length_nil] at hlen
    have : h.length + 1 - maxHistorySize = 1 := by omega
    rw [this]
  · rename_i hlen
    simp only [List.length_append, List.length_cons, List.length_nil] at hlen
    have : h.length + 1 - maxHistorySize = 0 := by omega
    rw [this, List.drop_zero]

lemma foldl_boundedPush (es : List MovementEvent) (h : List MovementEvent)
    (hcap : h.length ≤ maxHistorySize) :
    es.foldl boundedPush h = (h ++ es).drop ((h.length + es.length) - maxHistorySize) := by
  induction es generalizing h with
  | nil =>
    simp only [List.foldl_nil, List.length_nil, Nat.add_zero, List.append_nil]
    rw [Nat.sub_eq_zero_of_le hcap, List.drop_zero]
  | cons e es ih =>
    rw [List.foldl_cons, ih (boundedPush h e) (length_boundedPush_le h e hcap)]
    have hlb : (boundedPush h e).length = min maxHistorySize (h.length + 1) := by
      rw [boundedPush_eq_drop h e hcap, List.length_drop]
      simp only [List.length_append, List.length_cons, List.length_nil]
      omega
    have hd : h.length + 1 - maxHistorySize ≤ (h ++ [e]).length := by
      simp only [List.length_append, List.length_cons, List.length_nil]
      omega
    rw [hlb, boundedPush_eq_drop h e hcap, ← List.drop_append_of_le_length hd,
      List.drop_drop, List.append_assoc, List.singleton_append]
    refine congrFun (congrArg List.drop ?_) _
    simp only [List.length_cons]
    omega

/-- One call's worth of `recordMovement` arguments. -/
structure RecordInput where
  now : Nat
  position : Pos
  direction : Dir
  gameContext : GameContext
deriving DecidableEq, Repr

/-- The movement record `recordMovement` builds from one input. -/
def inputEvent (i : RecordInput) : MovementEvent :=
  { timestamp := i.now, position := i.position, direction := i.direction,
    gameContext := i.gameContext }

/-- Iterate `recordMovement` over a list of inputs. -/
def recordAll (st : AIEngine) (inputs : List RecordInput) : AIEngine :=
  inputs.foldl
    (fun s i => recordMovement s i.now i.position i.direction i.gameContext) st

lemma recordAll_movementHistory (st : AIEngine) (inputs : List RecordInput) :
    (recordAll st inputs).movementHistory =
      (inputs.map inputEvent).foldl boundedPush st.movementHistory := by
  induction inputs generalizing st with
  | nil => rfl
  | cons i inputs ih =>
    unfold recordAll at *
    rw [List.foldl_cons, ih, List.map_cons, List.foldl_cons,
      movementHistory_recordMovement]
    rfl

/-- C8: starting from an empty movement log, after more than
`maxHistorySize` (1000) recorded movements the History has length exactly
1000 and consists of precisely the most recent 1000 movement records in
order — the oldest `N - 1000` records have been evicted first-in-first-out. -/
theorem recordMovement_bounded_fifo (st : AIEngine) (inputs : List RecordInput)
    (hempty : st.movementHistory = []) (hN : maxHistorySize < inputs.length) :
    (recordAll st inputs).movementHistory.length = maxHistorySize ∧
    (recordAll st inputs).movementHistory =
      (inputs.map inputEvent).drop (inputs.length - maxHistorySize) := by
  have h := recordAll_movementHistory st inputs
  rw [hempty] at h
  rw [foldl_boundedPush _ [] (by simp [maxHistorySize])] at h
  simp only [List.nil_append, List.length_nil, Nat.zero_add, List.length_map] at h
  refine ⟨?_, h⟩
  rw [h, List.length_drop, List.length_map]
  omega

/-- Witness for C8: 1001 synthetic movement inputs on a fresh engine. -/
theorem recordMovement_bounded_fifo_witness :
    maxHistorySize <
      ((List.range 1001).map (fun i =>
        ({ now := i, position := { x := 0, y := 0 }, direction := Dir.up,
           gameContext := { score := 0, snakeLength := 1, foodDistance := 0 } }
          : RecordInput))).length ∧
    (recordAll (mkAIEngine 20 400 400)
        ((List.range 1001).map (fun i =>
          ({ now := i, position := { x := 0, y := 0 }, direction := Dir.up,
             gameContext := { score := 0, snakeLength := 1, foodDistance := 0 } }
            : RecordInput)))).movementHistory.length = maxHistorySize :=
  ⟨by simp [maxHistorySize],
   (recordMovement_bounded_fifo (mkAIEngine 20 400 400) _ rfl
     (by simp [maxHistorySize])).1⟩

lemma mem_validColdspots_not_excluded {st : AIEngine} {excl : List Pos}
    {s : Spot} (hs : s ∈ validColdspots st excl) :
    ({ x := s.x, y := s.y } : Pos) ∉ excl := by
  unfold validColdspots at hs
  have h2 := (List.mem_filter.1 hs).2
  exact isExcluded_eq_false_iff.1 (by simpa using h2)

lemma mem_accessibleSpots_not_excluded {st : AIEngine} {excl : List Pos}
    {p : Pos} (hp : p ∈ accessibleSpots st excl) : p ∉ excl := by
  unfold accessibleSpots at hp
  rw [List.mem_flatMap] at hp
  obtain ⟨y, -, hp⟩ := hp
  rw [List.mem_filterMap] at hp
  obtain ⟨x, -, hx⟩ := hp
  dsimp only at hx
  by_cases hc1 : (0.2 : ℚ) ≤ cellAt (generateHeatmap st.movementHeatmap) y x 0 ∧
      cellAt (generateHeatmap st.movementHeatmap) y x 0 ≤ 0.6
  · rw [if_pos hc1] at hx
    by_cases hc2 : isExcluded excl
        { x := ((x * st.gridSize : Nat) : Int), y := ((y * st.gridSize : Nat) : Int) } = true
    · rw [if_pos hc2] at hx
      exact absurd hx (by simp)
    · rw [if_neg hc2] at hx
      rw [Option.some.injEq] at hx
      subst hx
      have h2f : isExcluded excl
          { x := ((x * st.gridSize : Nat) : Int),
            y := ((y * st.gridSize : Nat) : Int) } = false := by
        simpa using hc2
      exact isExcluded_eq_false_iff.1 h2f
  · rw [if_neg hc1] at hx
    exact absurd hx (by simp)

lemma getRandomFoodPositionAux_not_mem_or_origin (st : AIEngine)
    (rng : Nat → Nat) (excl : List Pos) :
    ∀ fuel attempts,
      getRandomFoodPositionAux st rng excl attempts fuel ∉ excl ∨
      getRandomFoodPositionAux st rng excl attempts fuel = { x := 0, y := 0 } := by
  intro fuel
  induction fuel with
  | zero => intro attempts; right; rfl
  | succ fuel ih =>
    intro attempts
    unfold getRandomFoodPositionAux
    dsimp only
    split
    · exact ih (attempts + 1)
    · rename_i hnot
      left
      exact isExcluded_eq_false_iff.1 (Bool.not_eq_true _ ▸ hnot)

lemma getRandomFoodPosition_not_mem_or_origin (st : AIEngine)
    (rng : Nat → Nat) (excl : List Pos) :
    getRandomFoodPosition st rng excl ∉ excl ∨
    getRandomFoodPosition st rng excl = { x := 0, y := 0 } :=
  getRandomFoodPositionAux_not_mem_or_origin st rng excl 100 0

lemma coldspot_choice_safe (st : AIEngine) (excl : List Pos) (k idx : Nat) :
    ({ x := (((validColdspots st excl).take k).getD idx defaultSpot).x,
       y := (((validColdspots st excl).take k).getD idx defaultSpot).y } : Pos) ∉ excl ∨
    ({ x := (((validColdspots st excl).take k).getD idx defaultSpot).x,
       y := (((validColdspots st excl).take k).getD idx defaultSpot).y } : Pos) =
      { x := 0, y := 0 } := by
  rcases getD_mem_or_default ((validColdspots st excl).take k) idx defaultSpot with
    hmem | hdef
  · left
    exact mem_validColdspots_not_excluded (List.mem_of_mem_take hmem)
  · right
    rw [hdef]
    rfl

lemma getChallengingFoodPosition_not_mem_or_origin (st : AIEngine)
    (rng : Nat → Nat) (excl : List Pos) :
    getChallengingFoodPosition st rng excl ∉ excl ∨
    getChallengingFoodPosition st rng excl = { x := 0, y := 0 } := by
  unfold getChallengingFoodPosition
  split
  · exact coldspot_choice_safe st excl _ _
  · exact getRandomFoodPosition_not_mem_or_origin st rng excl

lemma getAccessibleFoodPosition_not_mem_or_origin (st : AIEngine)
    (rng : Nat → Nat) (excl : List Pos) :
    getAccessibleFoodPosition st rng excl ∉ excl ∨
    getAccessibleFoodPosition st rng excl = { x := 0, y := 0 } := by
  unfold getAccessibleFoodPosition
  split
  · rcases getD_mem_or_default (accessibleSpots st excl)
      (rng 0 % (accessibleSpots st excl).length) { x := 0, y := 0 } with hmem | hdef
    · left
      exact mem_accessibleSpots_not_excluded hmem
    · right
      exact hdef
  · exact getRandomFoodPosition_not_mem_or_origin st rng excl

lemma suggestFoodPlacement_not_mem_or_origin (st : AIEngine)
    (rng : Nat → Nat) (excl : List Pos) :
    suggestFoodPlacement st rng excl ∉ excl ∨
    suggestFoodPlacement st rng excl = { x := 0, y := 0 } := by
  unfold suggestFoodPlacement
  rcases hd : determinePlacementStrategy st with ⟨s, st1⟩
  cases s
  · exact getRandomFoodPosition_not_mem_or_origin st1 rng excl
  · exact getChallengingFoodPosition_not_mem_or_origin st1 rng excl
  · exact getAccessibleFoodPosition_not_mem_or_origin st1 rng excl

/-- C2 (amended): whenever the grid origin is not among the excluded cells,
`suggestFoodPlacement` never returns an excluded cell — for every strategy
the candidate lists are filtered against the exclusion set and the only
other possible output is the deterministic origin fallback. An exclusion set
that merely fails to cover the whole grid is not enough: if it contains the
origin, an adversarial run of the 100 random draws falls back to the origin,
which is excluded (see the counterexample). -/
theorem suggestFoodPlacement_exclusion_safe (st : AIEngine) (rng : Nat → Nat)
    (excl : List Pos) (horigin : ({ x := 0, y := 0 } : Pos) ∉ excl) :
    suggestFoodPlacement st rng excl ∉ excl := by
  rcases suggestFoodPlacement_not_mem_or_origin st rng excl with h | h
  · exact h
  · rw [h]
    exact horigin

/-- A fresh engine over a 2×1 grid with 1-pixel cells. -/
def stTwoByOne : AIEngine := mkAIEngine 1 2 1

/-- C2 counterexample: on the 2×1 grid, the exclusion set `{(0,0)}` does not
cover the grid (cell (1,0) is free), yet with a random stream that always
draws cell (0,0) all 100 attempts collide and `suggestFoodPlacement` returns
the origin — a member of the exclusion set. -/
theorem suggestFoodPlacement_exclusion_violated :
    stTwoByOne.gridWidth = 2 ∧ stTwoByOne.gridHeight = 1 ∧
    (({ x := 1, y := 0 } : Pos) ∉ ([{ x := 0, y := 0 }] : List Pos)) ∧
    suggestFoodPlacement stTwoByOne (fun _ => 0) [{ x := 0, y := 0 }] =
      { x := 0, y := 0 } ∧
    (({ x := 0, y := 0 } : Pos) ∈ ([{ x := 0, y := 0 }] : List Pos)) := by
  decide

/-- Witness for C2's amended theorem: excluding only cell (1,0) on the 2×1
grid, the suggested cell is never the excluded one. -/
theorem suggestFoodPlacement_exclusion_safe_witness :
    (({ x := 0, y := 0 } : Pos) ∉ ([{ x := 1, y := 0 }] : List Pos)) ∧
    suggestFoodPlacement stTwoByOne (fun _ => 0) [{ x := 1, y := 0 }] ∉
      ([{ x := 1, y := 0 }] : List Pos) :=
  ⟨by decide,
   suggestFoodPlacement_exclusion_safe stTwoByOne (fun _ => 0)
     [{ x := 1, y := 0 }] (by decide)⟩

lemma performanceMetrics_updateVisualIntensityFromDifficulty (st : AIEngine) :
    (updateVisualIntensityFromDifficulty st).performanceMetrics =
      st.performanceMetrics := rfl

lemma low_lt_high (st : AIEngine) :
    lowPerformanceThreshold st < highPerformanceThreshold st := by
  unfold lowPerformanceThreshold highPerformanceThreshold
  have h50 : (50:ℚ) ≤ scoreThreshold st := le_max_left _ _
  linarith

/-- The state after a high-performance evaluation that only bumps the
streak counter. -/
def stepHighState (st : AIEngine) : AIEngine :=
  { st with performanceMetrics :=
      { st.performanceMetrics with
        consecutiveHighPerformance :=
          st.performanceMetrics.consecutiveHighPerformance + 1,
        consecutiveLowPerformance := 0 } }

/-- The state after a low-performance evaluation that only bumps the streak
counter. -/
def stepLowState (st : AIEngine) : AIEngine :=
  { st with performanceMetrics :=
      { st.performanceMetrics with
        consecutiveHighPerformance := 0,
        consecutiveLowPerformance :=
          st.performanceMetrics.consecutiveLowPerformance + 1 } }

lemma recentScores_stepHighState (st : AIEngine) :
    (stepHighState st).performanceMetrics.recentScores =
      st.performanceMetrics.recentScores := rfl

lemma averageRecentScore_stepHighState (st : AIEngine) :
    averageRecentScore (stepHighState st) = averageRecentScore st := rfl

lemma highThreshold_stepHighState (st : AIEngine) :
    highPerformanceThreshold (stepHighState st) = highPerformanceThreshold st := rfl

lemma ch_stepHighState (st : AIEngine) :
    (stepHighState st).performanceMetrics.consecutiveHighPerformance =
      st.performanceMetrics.consecutiveHighPerformance + 1 := rfl

lemma difficulty_stepHighState (st : AIEngine) :
    (stepHighState st).adaptationSettings.currentDifficulty =
      st.adaptationSettings.currentDifficulty := rfl

lemma recentScores_stepLowState (st : AIEngine) :
    (stepLowState st).performanceMetrics.recentScores =
      st.performanceMetrics.recentScores := rfl

lemma averageRecentScore_stepLowState (st : AIEngine) :
    averageRecentScore (stepLowState st) = averageRecentScore st := rfl

lemma lowThreshold_stepLowState (st : AIEngine) :
    lowPerformanceThreshold (stepLowState st) = lowPerformanceThreshold st := rfl

lemma cl_stepLowState (st : AIEngine) :
    (stepLowState st).performanceMetrics.consecutiveLowPerformance =
      st.performanceMetrics.consecutiveLowPerformance + 1 := rfl

lemma difficulty_stepLowState (st : AIEngine) :
    (stepLowState st).adaptationSettings.currentDifficulty =
      st.adaptationSettings.currentDifficulty := rfl

lemma calculateDifficulty_high_step (st : AIEngine)
    (hlen : ¬ st.performanceMetrics.recentScores.length < 3)
    (hh : highPerformanceThreshold st ≤ averageRecentScore st)
    (hs : st.performanceMetrics.consecutiveHighPerformance + 1 < 3) :
    calculateDifficulty st = stepHighState st := by
  unfold calculateDifficulty
  rw [if_neg hlen]
  dsimp only
  rw [if_pos hh, if_neg (by rintro ⟨h3, -⟩; omega)]
  unfold applyDifficultyChange
  rw [if_neg (by simp)]
  rfl

lemma calculateDifficulty_high_fire (st : AIEngine)
    (hlen : ¬ st.performanceMetrics.recentScores.length < 3)
    (hh : highPerformanceThreshold st ≤ averageRecentScore st)
    (hs3 : 3 ≤ st.performanceMetrics.consecutiveHighPerformance + 1)
    (hd : st.adaptationSettings.currentDifficulty < 10) :
    (calculateDifficulty st).adaptationSettings.currentDifficulty =
      st.adaptationSettings.currentDifficulty + 1 ∧
    (calculateDifficulty st).performanceMetrics.consecutiveHighPerformance = 0 ∧
    (calculateDifficulty st).performanceMetrics.consecutiveLowPerformance = 0 := by
  unfold calculateDifficulty
  rw [if_neg hlen]
  dsimp only
  rw [if_pos hh, if_pos ⟨hs3, hd⟩]
  unfold applyDifficultyChange
  rw [if_pos (by simp only [ne_eq]; omega)]
  refine ⟨?_, ?_, ?_⟩
  · rw [currentDifficulty_updateVisualIntensityFromDifficulty]
    dsimp only
    omega
  · rfl
  · rfl

lemma calculateDifficulty_low_step (st : AIEngine)
    (hlen : ¬ st.performanceMetrics.recentScores.length < 3)
    (hl : averageRecentScore st ≤ lowPerformanceThreshold st)
    (hs : st.performanceMetrics.consecutiveLowPerformance + 1 < 3) :
    calculateDifficulty st = stepLowState st := by
  have hnh : ¬ (highPerformanceThreshold st ≤ averageRecentScore st) := by
    have := low_lt_high st
    intro h
    linarith
  unfold calculateDifficulty
  rw [if_neg hlen]
  dsimp only
  rw [if_neg hnh, if_pos hl, if_neg (by rintro ⟨h3, -⟩; omega)]
  unfold applyDifficultyChange
  rw [if_neg (by simp)]
  rfl

lemma calculateDifficulty_low_fire (st : AIEngine)
    (hlen : ¬ st.performanceMetrics.recentScores.length < 3)
    (hl : averageRecentScore st ≤ lowPerformanceThreshold st)
    (hs3 : 3 ≤ st.performanceMetrics.consecutiveLowPerformance + 1)
    (hd : 1 < st.adaptationSettings.currentDifficulty) :
    (calculateDifficulty st).adaptationSettings.currentDifficulty =
      st.adaptationSettings.currentDifficulty - 1 ∧
    (calculateDifficulty st).performanceMetrics.consecutiveLowPerformance = 0 ∧
    (calculateDifficulty st).performanceMetrics.consecutiveHighPerformance = 0 := by
  have hnh : ¬ (highPerformanceThreshold st ≤ averageRecentScore st) := by
    have := low_lt_high st
    intro h
    linarith
  unfold calculateDifficulty
  rw [if_neg hlen]
  dsimp only
  rw [if_neg hnh, if_pos hl, if_pos ⟨hs3, hd⟩]
  unfold applyDifficultyChange
  rw [if_pos (by simp only [ne_eq]; omega)]
  refine ⟨?_, ?_, ?_⟩
  · rw [currentDifficulty_updateVisualIntensityFromDifficulty]
    dsimp only
    omega
  · rfl
  · rfl

/-- C3 (amended): with at least 3 recent scores and the streak counter that
is about to fire starting at 0, three consecutive `calculateDifficulty`
evaluations whose recent mean stays at or above the high threshold raise the
difficulty by exactly 1 and reset the high streak counter to 0 — provided
the difficulty starts below 10; symmetrically, three low evaluations lower
it by exactly 1 and reset the low streak counter, provided the difficulty
starts above 1. At the clamp boundary (difficulty 10 for the high side, 1
for the low side) the source skips the whole bump branch, so the streak
counter keeps growing and is not reset (see the counterexample). -/
theorem calculateDifficulty_three_streaks (st : AIEngine)
    (hlen : 3 ≤ st.performanceMetrics.recentScores.length) :
    (st.performanceMetrics.consecutiveHighPerformance = 0 →
     highPerformanceThreshold st ≤ averageRecentScore st →
     st.adaptationSettings.currentDifficulty < 10 →
     (calculateDifficulty (calculateDifficulty (calculateDifficulty
        st))).adaptationSettings.currentDifficulty =
       st.adaptationSettings.currentDifficulty + 1 ∧
     (calculateDifficulty (calculateDifficulty (calculateDifficulty
        st))).performanceMetrics.consecutiveHighPerformance = 0) ∧
    (st.performanceMetrics.consecutiveLowPerformance = 0 →
     averageRecentScore st ≤ lowPerformanceThreshold st →
     1 < st.adaptationSettings.currentDifficulty →
     (calculateDifficulty (calculateDifficulty (calculateDifficulty
        st))).adaptationSettings.currentDifficulty =
       st.adaptationSettings.currentDifficulty - 1 ∧
     (calculateDifficulty (calculateDifficulty (calculateDifficulty
        st))).performanceMetrics.consecutiveLowPerformance = 0) := by
  have hlen3 : ¬ st.performanceMetrics.recentScores.length < 3 := by omega
  constructor
  · intro hch hh hd
    have hlen1 : ¬ (stepHighState st).performanceMetrics.recentScores.length < 3 := by
      rw [recentScores_stepHighState]
      omega
    have hh1 : highPerformanceThreshold (stepHighState st) ≤
        averageRecentScore (stepHighState st) := by
      rw [highThreshold_stepHighState, averageRecentScore_stepHighState]
      exact hh
    have hlen2 : ¬ (stepHighState (stepHighState st)).performanceMetrics.recentScores.length < 3 := by
      rw [recentScores_stepHighState, recentScores_stepHighState]
      omega
    have hh2 : highPerformanceThreshold (stepHighState (stepHighState st)) ≤
        averageRecentScore (stepHighState (stepHighState st)) := by
      rw [highThreshold_stepHighState, highThreshold_stepHighState,
        averageRecentScore_stepHighState, averageRecentScore_stepHighState]
      exact hh
    rw [calculateDifficulty_high_step st hlen3 hh (by omega)]
    rw [calculateDifficulty_high_step (stepHighState st) hlen1 hh1
      (by rw [ch_stepHighState]; omega)]
    have hfire := calculateDifficulty_high_fire (stepHighState (stepHighState st))
      hlen2 hh2
      (by rw [ch_stepHighState, ch_stepHighState]; omega)
      (by rw [difficulty_stepHighState, difficulty_stepHighState]; exact hd)
    rw [difficulty_stepHighState, difficulty_stepHighState] at hfire
    exact ⟨hfire.1, hfire.2.1⟩
  · intro hcl hl hd
    have hlen1 : ¬ (stepLowState st).performanceMetrics.recentScores.length < 3 := by
      rw [recentScores_stepLowState]
      omega
    have hl1 : averageRecentScore (stepLowState st) ≤
        lowPerformanceThreshold (stepLowState st) := by
      rw [lowThreshold_stepLowState, averageRecentScore_stepLowState]
      exact hl
    have hlen2 : ¬ (stepLowState (stepLowState st)).performanceMetrics.recentScores.length < 3 := by
      rw [recentScores_stepLowState, recentScores_stepLowState]
      omega
    have hl2 : averageRecentScore (stepLowState (stepLowState st)) ≤
        lowPerformanceThreshold (stepLowState (stepLowState st)) := by
      rw [lowThreshold_stepLowState, lowThreshold_stepLowState,
        averageRecentScore_stepLowState, averageRecentScore_stepLowState]
      exact hl
    rw [calculateDifficulty_low_step st hlen3 hl (by omega)]
    rw [calculateDifficulty_low_step (stepLowState st) hlen1 hl1
      (by rw [cl_stepLowState]; omega)]
    have hfire := calculateDifficulty_low_fire (stepLowState (stepLowState st))
      hlen2 hl2
      (by rw [cl_stepLowState, cl_stepLowState]; omega)
      (by rw [difficulty_stepLowState, difficulty_stepLowState]; exact hd)
    rw [difficulty_stepLowState, difficulty_stepLowState] at hfire
    exact ⟨hfire.1, hfire.2.1⟩

/-- A fresh engine at difficulty 4 whose recent scores are three 100s (with
the stored average score still 0, the thresholds are 50/75/25 and the recent
mean 100 clears the high threshold). -/
def stClimbing : AIEngine :=
  let st := mkAIEngine 20 400 400
  { st with
    adaptationSettings := { st.adaptationSettings with currentDifficulty := 4 },
    performanceMetrics := { st.performanceMetrics with recentScores := [100, 100, 100] } }

/-- The same high-performing state but already at the maximum difficulty 10. -/
def stSaturated : AIEngine :=
  let st := mkAIEngine 20 400 400
  { st with
    adaptationSettings := { st.adaptationSettings with currentDifficulty := 10 },
    performanceMetrics := { st.performanceMetrics with recentScores := [100, 100, 100] } }

/-- C3 counterexample: at difficulty 10 three consecutive high-performance
evaluations leave the difficulty at 10 (consistent with the clamp) but the
high streak counter ends at 3, not 0 — the source only enters the
raise-and-reset branch when `currentDifficulty < 10`, so the claimed
unconditional reset after three high evaluations is false. -/
theorem calculateDifficulty_saturated_streak_not_reset :
    3 ≤ stSaturated.performanceMetrics.recentScores.length ∧
    stSaturated.performanceMetrics.consecutiveHighPerformance = 0 ∧
    highPerformanceThreshold stSaturated ≤ averageRecentScore stSaturated ∧
    stSaturated.adaptationSettings.currentDifficulty = 10 ∧
    (calculateDifficulty (calculateDifficulty (calculateDifficulty
       stSaturated))).adaptationSettings.currentDifficulty = 10 ∧
    (calculateDifficulty (calculateDifficulty (calculateDifficulty
       stSaturated))).performanceMetrics.consecutiveHighPerformance = 3 := by
  decide

/-- Witness for C3's amended theorem at the concrete difficulty-4 state. -/
theorem calculateDifficulty_three_streaks_witness :
    3 ≤ stClimbing.performanceMetrics.recentScores.length ∧
    stClimbing.performanceMetrics.consecutiveHighPerformance = 0 ∧
    highPerformanceThreshold stClimbing ≤ averageRecentScore stClimbing ∧
    stClimbing.adaptationSettings.currentDifficulty < 10 ∧
    ((calculateDifficulty (calculateDifficulty (calculateDifficulty
        stClimbing))).adaptationSettings.currentDifficulty =
      stClimbing.adaptationSettings.currentDifficulty + 1 ∧
     (calculateDifficulty (calculateDifficulty (calculateDifficulty
        stClimbing))).performanceMetrics.consecutiveHighPerformance = 0) :=
  ⟨by decide, by decide, by decide, by decide,
   (calculateDifficulty_three_streaks stClimbing (by decide)).1
     (by decide) (by decide) (by decide)⟩

lemma dirCount_bumpDir (c : DirectionCounts) (e d : Dir) :
    dirCount (bumpDir c e) d = dirCount c d + if e = d then 1 else 0 := by
  cases e <;> cases d <;> simp [bumpDir, dirCount]

lemma dirCount_foldl (l : List MovementEvent) (c : DirectionCounts) (d : Dir) :
    dirCount (l.foldl (fun c r => bumpDir c r.direction) c) d =
      dirCount c d + l.countP (fun r => decide (r.direction = d)) := by
  induction l generalizing c with
  | nil => simp
  | cons r l ih =>
    rw [List.foldl_cons, ih, List.countP_cons, dirCount_bumpDir]
    simp only [decide_eq_true_eq]
    split <;> omega

/-- C9: below 10 recorded events `analyzeMovementPatterns` returns the
neutral result (no dominant directions, diversity 0); with at least 10
events it returns the per-direction counts of the full retained history,
diversity equal to the number of the four directions with at least one
occurrence divided by 4, and as dominant directions exactly those whose
count strictly exceeds a quarter of the total, ordered by descending count. -/
theorem analyzeMovementPatterns_spec (st : AIEngine) :
    (st.movementHistory.length < 10 →
      (analyzeMovementPatterns st).dominantDirections = [] ∧
      (analyzeMovementPatterns st).movementDiversity = 0) ∧
    (10 ≤ st.movementHistory.length →
      (analyzeMovementPatterns st).directionCounts = some
        { up := st.movementHistory.countP (fun r => decide (r.direction = Dir.up)),
          down := st.movementHistory.countP (fun r => decide (r.direction = Dir.down)),
          left := st.movementHistory.countP (fun r => decide (r.direction = Dir.left)),
          right := st.movementHistory.countP (fun r => decide (r.direction = Dir.right)) } ∧
      (analyzeMovementPatterns st).movementDiversity =
        (([st.movementHistory.countP (fun r => decide (r.direction = Dir.up)),
            st.movementHistory.countP (fun r => decide (r.direction = Dir.down)),
            st.movementHistory.countP (fun r => decide (r.direction = Dir.left)),
            st.movementHistory.countP (fun r => decide (r.direction = Dir.right))].filter
              (fun count => decide (0 < count))).length : ℚ) / 4 ∧
      (∀ d : Dir, d ∈ (analyzeMovementPatterns st).dominantDirections ↔
        (st.movementHistory.length : ℚ) / 4 <
          (st.movementHistory.countP (fun r => decide (r.direction = d)) : ℚ)) ∧
      (analyzeMovementPatterns st).dominantDirections.Pairwise (fun a b =>
        st.movementHistory.countP (fun r => decide (r.direction = b)) ≤
        st.movementHistory.countP (fun r => decide (r.direction = a)))) := by
  have hcnt : ∀ d : Dir,
      dirCount (st.movementHistory.foldl (fun c r => bumpDir c r.direction)
        ({} : DirectionCounts)) d =
        st.movementHistory.countP (fun r => decide (r.direction = d)) := by
    intro d
    rw [dirCount_foldl]
    have h0 : dirCount ({} : DirectionCounts) d = 0 := by cases d <;> rfl
    rw [h0, Nat.zero_add]
  constructor
  · intro hlt
    unfold analyzeMovementPatterns
    rw [if_pos hlt]
    exact ⟨rfl, rfl⟩
  · intro h10
    have hlen10 : ¬ st.movementHistory.length < 10 := by omega
    unfold analyzeMovementPatterns
    rw [if_neg hlen10]
    dsimp only
    have hup := hcnt Dir.up
    have hdown := hcnt Dir.down
    have hleft := hcnt Dir.left
    have hright := hcnt Dir.right
    refine ⟨?_, ?_, ?_, ?_⟩
    · rw [Option.some.injEq]
      have e : ∀ c : DirectionCounts,
          c = { up := dirCount c Dir.up, down := dirCount c Dir.down,
                left := dirCount c Dir.left, right := dirCount c Dir.right } := by
        intro c
        cases c
        rfl
      rw [e (st.movementHistory.foldl (fun c r => bumpDir c r.direction)
        ({} : DirectionCounts))]
      rw [hup, hdown, hleft, hright]
    · rw [show (st.movementHistory.foldl (fun c r => bumpDir c r.direction)
          ({} : DirectionCounts)).up = dirCount (st.movementHistory.foldl
            (fun c r => bumpDir c r.direction) ({} : DirectionCounts)) Dir.up from rfl,
        show (st.movementHistory.foldl (fun c r => bumpDir c r.direction)
          ({} : DirectionCounts)).down = dirCount (st.movementHistory.foldl
            (fun c r => bumpDir c r.direction) ({} : DirectionCounts)) Dir.down from rfl,
        show (st.movementHistory.foldl (fun c r => bumpDir c r.direction)
          ({} : DirectionCounts)).left = dirCount (st.movementHistory.foldl
            (fun c r => bumpDir c r.direction) ({} : DirectionCounts)) Dir.left from rfl,
        show (st.movementHistory.foldl (fun c r => bumpDir c r.direction)
          ({} : DirectionCounts)).right = dirCount (st.movementHistory.foldl
            (fun c r => bumpDir c r.direction) ({} : DirectionCounts)) Dir.right from rfl,
        hup, hdown, hleft, hright]
    · intro d
      rw [mem_jsSortBy, List.mem_filter]
      constructor
      · rintro ⟨-, hcond⟩
        rw [decide_eq_true_eq, hcnt d] at hcond
        exact hcond
      · intro hcond
        refine ⟨by cases d <;> simp [dirKeys], ?_⟩
        rw [decide_eq_true_eq, hcnt d]
        exact hcond
    · have htrans : ∀ a b c : Dir,
          decide (dirCount (st.movementHistory.foldl (fun c r => bumpDir c r.direction)
            ({} : DirectionCounts)) b ≤ dirCount (st.movementHistory.foldl
              (fun c r => bumpDir c r.direction) ({} : DirectionCounts)) a) = true →
          decide (dirCount (st.movementHistory.foldl (fun c r => bumpDir c r.direction)
            ({} : DirectionCounts)) c ≤ dirCount (st.movementHistory.foldl
              (fun c r => bumpDir c r.direction) ({} : DirectionCounts)) b) = true →
          decide (dirCount (st.movementHistory.foldl (fun c r => bumpDir c r.direction)
            ({} : DirectionCounts)) c ≤ dirCount (st.movementHistory.foldl
              (fun c r => bumpDir c r.direction) ({} : DirectionCounts)) a) = true := by
        intro a b c hab hbc
        rw [decide_eq_true_eq] at *
        omega
      have htotal : ∀ a b : Dir,
          (decide (dirCount (st.movementHistory.foldl (fun c r => bumpDir c r.direction)
            ({} : DirectionCounts)) b ≤ dirCount (st.movementHistory.foldl
              (fun c r => bumpDir c r.direction) ({} : DirectionCounts)) a) ||
           decide (dirCount (st.movementHistory.foldl (fun c r => bumpDir c r.direction)
            ({} : DirectionCounts)) a ≤ dirCount (st.movementHistory.foldl
              (fun c r => bumpDir c r.direction) ({} : DirectionCounts)) b)) = true := by
        intro a b
        rw [Bool.or_eq_true, decide_eq_true_eq, decide_eq_true_eq]
        omega
      have hp := @pairwise_jsSortBy Dir
        (fun a b => decide (dirCount (st.movementHistory.foldl
          (fun c r => bumpDir c r.direction) ({} : DirectionCounts)) b ≤
          dirCount (st.movementHistory.foldl (fun c r => bumpDir c r.direction)
            ({} : DirectionCounts)) a))
        (by intro a b c hab hbc; exact htrans a b c hab hbc)
        (by intro a b; have := htotal a b; rw [Bool.or_eq_true] at this; exact this)
        (dirKeys.filter (fun d => decide ((st.movementHistory.length : ℚ) / 4 <
          (dirCount (st.movementHistory.foldl (fun c r => bumpDir c r.direction)
            ({} : DirectionCounts)) d : ℚ))))
      refine hp.imp ?_
      intro a b hab
      rw [decide_eq_true_eq, hcnt a, hcnt b] at hab
      exact hab

/-- 25 movements to the right followed by 5 downward movements, at distinct
cells. -/
def exThirtyMoves : List MovementEvent :=
  (List.range 25).map (fun i =>
    { timestamp := i, position := { x := i, y := 0 }, direction := Dir.right,
      gameContext := { score := 0, snakeLength := 1, foodDistance := 0 } }) ++
  (List.range 5).map (fun i =>
    { timestamp := 25 + i, position := { x := i, y := 1 }, direction := Dir.down,
      gameContext := { score := 0, snakeLength := 1, foodDistance := 0 } })

/-- A fresh 30×30 engine whose movement history is the 30-move scenario. -/
def stThirtyMoves : AIEngine :=
  { mkAIEngine 20 600 600 with movementHistory := exThirtyMoves }

/-- Witness for C9: the 25-right/5-down scenario yields dominant direction
list `[right]`, counts `{right: 25, down: 5, up: 0, left: 0}` and diversity
`0.5`, and instantiates the general dominant-direction characterization. -/
theorem analyzeMovementPatterns_spec_witness :
    10 ≤ stThirtyMoves.movementHistory.length ∧
    (analyzeMovementPatterns stThirtyMoves).dominantDirections = [Dir.right] ∧
    (analyzeMovementPatterns stThirtyMoves).directionCounts =
      some { up := 0, down := 5, left := 0, right := 25 } ∧
    (analyzeMovementPatterns stThirtyMoves).movementDiversity = 1/2 ∧
    (∀ d : Dir, d ∈ (analyzeMovementPatterns stThirtyMoves).dominantDirections ↔
      (stThirtyMoves.movementHistory.length : ℚ) / 4 <
        (stThirtyMoves.movementHistory.countP
          (fun r => decide (r.direction = d)) : ℚ)) :=
  ⟨by decide, by decide, by decide, by decide,
   ((analyzeMovementPatterns_spec stThirtyMoves).2 (by decide)).2.2.1⟩

end SnakeAI
